import Mathlib

/-
Shallow embedding of the RadioFM plugin server (src/server.js), a thin
proxy that validates a query, calls one upstream combined-search endpoint,
and normalizes the response into stations and podcasts.

Modelling conventions:
* Raw upstream items are duck-typed JS objects; every raw field is an
  `Option String` (`none` models an absent / `undefined` field).
* JS `NaN` produced by `parseInt` is modelled as `none : Option Int`.
* A bucket's `data` field is `Option (List RawItem)`: `none` models a
  field that is absent or not an array (`Array.isArray` fails).
* The decoded axios body is `Option (Option PayloadData)`: the outer
  `none` models a falsy `apiData`, the inner `none` a falsy
  `apiData.data`.
* The outcome of the single outbound call is `UpstreamOutcome`:
  `transportError` models axios throwing (network failure, timeout,
  non-2xx status), which the handler's catch block turns into a 500.
* `searchHandler` returns the HTTP response together with the number of
  outbound upstream calls performed (0 or 1), so that "no upstream call"
  and "no retry" are visible in the model.
-/

namespace RadioFM

/-- JS truthiness default `v || d` for an optional string: `undefined`
and the empty string are falsy and fall through to the default. -/
def jsOrString (v : Option String) (d : String) : String :=
  match v with
  | none => d
  | some s => if s = "" then d else s

/-- Model of JS `String.prototype.trim`: remove whitespace from both
ends of the string. -/
def jsTrim (s : String) : String :=
  ⟨((s.data.dropWhile Char.isWhitespace).reverse.dropWhile Char.isWhitespace).reverse⟩

/-- Interpolation of an optional string into a JS template literal:
an absent value prints as the literal text "undefined". -/
def jsTemplateArg : Option String → String
  | none => "undefined"
  | some s => s

/-- Base-10 value of a list of decimal digit characters, accumulated
left to right as JS parseInt does. -/
def digitsToNat (ds : List Char) : Nat :=
  ds.foldl (fun n c => 10 * n + (c.toNat - 48)) 0

/-- Model of JS `parseInt(s, 10)`: skip leading whitespace, read an
optional sign, then the longest run of decimal digits; if that run is
empty the result is NaN, modelled as `none`. -/
def parseInt10 (s : String) : Option Int :=
  let cs := s.data.dropWhile Char.isWhitespace
  let neg : Bool := cs.head? == some '-'
  let rest : List Char := if cs.head? == some '-' || cs.head? == some '+' then cs.tail else cs
  let ds := rest.takeWhile Char.isDigit
  if ds = [] then none
  else if neg then some (-(digitsToNat ds : Int)) else some ((digitsToNat ds : Int))

/-- Raw upstream item, duck typed: the union of the fields that
`mapRadioStation` and `mapPodcast` read. Absent fields are `none`. -/
structure RawItem where
  st_id : Option String := none
  st_name : Option String := none
  st_logo : Option String := none
  st_weburl : Option String := none
  st_shorturl : Option String := none
  st_genre : Option String := none
  st_lang : Option String := none
  language : Option String := none
  st_bc_freq : Option String := none
  st_city : Option String := none
  st_state : Option String := none
  country_name_rs : Option String := none
  st_country : Option String := none
  st_play_cnt : Option String := none
  st_fav_cnt : Option String := none
  stream_link : Option String := none
  stream_type : Option String := none
  stream_bitrate : Option String := none
  deeplink : Option String := none
  p_id : Option String := none
  p_name : Option String := none
  p_desc : Option String := none
  p_lang : Option String := none
  p_image : Option String := none
  p_email : Option String := none
  cat_name : Option String := none
  total_stream : Option String := none
  cc_code : Option String := none
deriving Repr, DecidableEq

/-- Normalized station record produced by `mapRadioStation`. -/
structure Station where
  id : Option String
  name : Option String
  logo : Option String
  website : Option String
  shortUrl : Option String
  genre : Option String
  languageCode : Option String
  language : Option String
  frequency : Option String
  city : Option String
  state : Option String
  countryName : Option String
  countryCode : Option String
  playCount : Option Int
  favoriteCount : Option Int
  streamUrl : Option String
  streamType : Option String
  streamBitrate : Option String
  deeplink : Option String
  listenUrl : String
deriving Repr, DecidableEq

/-- Normalized podcast record produced by `mapPodcast`. -/
structure Podcast where
  id : Option String
  name : Option String
  description : Option String
  language : Option String
  image : Option String
  email : Option String
  category : Option String
  totalStream : Option Int
  deeplink : Option String
  countryCode : Option String
deriving Repr, DecidableEq

/-- Embedding of `mapRadioStation` from src/server.js. -/
def mapRadioStation (station : RawItem) : Station :=
  { id := station.st_id
    name := station.st_name
    logo := station.st_logo
    website := station.st_weburl
    shortUrl := station.st_shorturl
    genre := station.st_genre
    languageCode := station.st_lang
    language := station.language
    frequency := if station.st_bc_freq = some "~" then none else station.st_bc_freq
    city := station.st_city
    state := station.st_state
    countryName := station.country_name_rs
    countryCode := station.st_country
    playCount := parseInt10 (jsOrString station.st_play_cnt "0")
    favoriteCount := parseInt10 (jsOrString station.st_fav_cnt "0")
    streamUrl := station.stream_link
    streamType := station.stream_type
    streamBitrate := station.stream_bitrate
    deeplink := station.deeplink
    listenUrl := "https://appradiofm.com/radioplay/" ++ jsTemplateArg station.st_shorturl }

/-- Embedding of `mapPodcast` from src/server.js. -/
def mapPodcast (podcast : RawItem) : Podcast :=
  { id := podcast.p_id
    name := podcast.p_name
    description := podcast.p_desc
    language := podcast.p_lang
    image := podcast.p_image
    email := podcast.p_email
    category := podcast.cat_name
    totalStream := parseInt10 (jsOrString podcast.total_stream "0")
    deeplink := podcast.deeplink
    countryCode := podcast.cc_code }

/-- One labeled bucket of the upstream combined-search payload.
`type` is the bucket's label field; `data` is its item list, `none`
when absent or not an array. -/
structure Bucket where
  type : Option String := none
  data : Option (List RawItem) := none
deriving Repr, DecidableEq

/-- Nested payload object `apiData.data` of the upstream response body.
Every field is optional, as in the duck-typed JS access. -/
structure PayloadData where
  ErrorCode : Option Int := none
  ErrorMessage : Option String := none
  Data : Option (List Bucket) := none
deriving Repr, DecidableEq

/-- Outcome of the single outbound axios call: either the promise
rejects (network failure, timeout, non-2xx), or it resolves with a
decoded body `response.data`. -/
inductive UpstreamOutcome where
  | transportError : UpstreamOutcome
  | ok : Option (Option PayloadData) → UpstreamOutcome
deriving Repr, DecidableEq

/-- Success payload assembled by the handler. -/
structure SearchResult where
  query : String
  totalStations : Nat
  totalPodcasts : Nat
  stations : List Station
  podcasts : List Podcast
deriving Repr, DecidableEq

/-- HTTP response of the handler: a failure with status code and error
message string, or a 200 success with the `SearchResult` body. -/
inductive Response where
  | failure : Nat → String → Response
  | success : SearchResult → Response
deriving Repr, DecidableEq

/-- Item list the handler maps over for a selected bucket: empty when
the bucket was not found or its `data` is absent / not an array. -/
def bucketItems : Option Bucket → List RawItem
  | none => []
  | some bk =>
    match bk.data with
    | none => []
    | some items => items

/-- Interpretation of the decoded upstream body (lines 105-139 of
src/server.js): shape check, application error check, bucket
extraction, mapping, and output assembly. -/
def interpretBody (query : String) (body : Option (Option PayloadData)) : Response :=
  match body with
  | none => .failure 502 "Unexpected response from RadioFM API"
  | some none => .failure 502 "Unexpected response from RadioFM API"
  | some (some payload) =>
    if payload.ErrorCode ≠ some 0 then
      .failure 502 (jsOrString payload.ErrorMessage "RadioFM API error")
    else
      let buckets := payload.Data.getD []
      let radioBucket := buckets.find? (fun b => b.type == some "radio")
      let podcastBucket := buckets.find? (fun b => b.type == some "podcast")
      let stations := (bucketItems radioBucket).map mapRadioStation
      let podcasts := (bucketItems podcastBucket).map mapPodcast
      .success
        { query := query
          totalStations := stations.length
          totalPodcasts := podcasts.length
          stations := stations
          podcasts := podcasts }

/-- Embedding of the `/search` handler (lines 87-146 of src/server.js).
The second component counts outbound upstream calls: validation
failures return before the call, every other path performs exactly
one call and never retries. -/
def searchHandler (rawQuery : Option String) (upstream : UpstreamOutcome) : Response × Nat :=
  let query := jsTrim (jsOrString rawQuery "")
  if query = "" then
    (.failure 400 "Missing required query parameter: query", 0)
  else
    match upstream with
    | .transportError => (.failure 500 "Internal server error while searching RadioFM", 1)
    | .ok body => (interpretBody query body, 1)

/-- Normalized station list the handler computes for a payload: items of
the first bucket labeled "radio", mapped by `mapRadioStation`. -/
def normalizedStations (p : PayloadData) : List Station :=
  (bucketItems ((p.Data.getD []).find? fun b => b.type == some "radio")).map mapRadioStation

/-- Normalized podcast list the handler computes for a payload: items of
the first bucket labeled "podcast", mapped by `mapPodcast`. -/
def normalizedPodcasts (p : PayloadData) : List Podcast :=
  (bucketItems ((p.Data.getD []).find? fun b => b.type == some "podcast")).map mapPodcast

/-- Sample raw station item used as concrete witness input. -/
def sampleItem : RawItem :=
  { st_id := some "7", st_shorturl := some "jazz7", st_bc_freq := some "~" }

/-- Sample radio bucket used as concrete witness input. -/
def sampleRadioBucket : Bucket :=
  { type := some "radio", data := some [sampleItem] }

/-- Sample well-formed upstream payload used as concrete witness input. -/
def samplePayload : PayloadData :=
  { ErrorCode := some 0, ErrorMessage := none, Data := some [sampleRadioBucket] }

/-- Success result the handler produces for `samplePayload` and the
query "jazz". -/
def sampleResult : SearchResult :=
  { query := "jazz"
    totalStations := 1
    totalPodcasts := 0
    stations := [mapRadioStation sampleItem]
    podcasts := [] }

/-! ### Helper lemmas about the parseInt model -/

theorem digit_not_whitespace {c : Char} (h : c.isDigit = true) : c.isWhitespace = false := by
  cases hw : c.isWhitespace
  · rfl
  · exfalso
    simp only [Char.isWhitespace, Bool.or_eq_true, decide_eq_true_eq] at hw
    obtain ((h1 | h1) | h1) | h1 := hw <;> subst h1 <;> exact absurd h (by decide)

theorem digit_ne_minus {c : Char} (h : c.isDigit = true) : c ≠ '-' := by
  intro hc; subst hc; exact absurd h (by decide)

theorem digit_ne_plus {c : Char} (h : c.isDigit = true) : c ≠ '+' := by
  intro hc; subst hc; exact absurd h (by decide)

theorem takeWhile_digits_all {l : List Char} (h : ∀ c ∈ l, c.isDigit) :
    l.takeWhile Char.isDigit = l := by
  induction l with
  | nil => rfl
  | cons a t ih =>
    rw [List.takeWhile_cons]
    simp [h a (List.mem_cons_self a t), ih fun c hc => h c (List.mem_cons_of_mem a hc)]

/-- On a nonempty all-digit string, the parseInt model consumes the whole
string and returns its base-10 value: no NaN, no sign, no truncation. -/
theorem parseInt10_digits (s : String) (hne : s.data ≠ []) (hdig : ∀ c ∈ s.data, c.isDigit) :
    parseInt10 s = some ((digitsToNat s.data : Nat) : Int) := by
  obtain ⟨a, t, hs⟩ : ∃ a t, s.data = a :: t := by
    cases hd : s.data with
    | nil => exact absurd hd hne
    | cons a t => exact ⟨a, t, rfl⟩
  have ha : a.isDigit := hdig a (by rw [hs]; exact List.mem_cons_self a t)
  have hdw : s.data.dropWhile Char.isWhitespace = s.data := by
    rw [hs, List.dropWhile_cons]
    simp [digit_not_whitespace ha]
  have hhead : s.data.head? = some a := by
    rw [hs]; rfl
  have hneg : (s.data.head? == some '-') = false := by
    rw [hhead]
    simp [digit_ne_minus ha]
  have hplus : (s.data.head? == some '+') = false := by
    rw [hhead]
    simp [digit_ne_plus ha]
  have htw : s.data.takeWhile Char.isDigit = s.data := takeWhile_digits_all hdig
  simp only [parseInt10, hdw, hneg, hplus, Bool.or_self, Bool.false_eq_true, if_false, htw]
  rw [if_neg hne]

theorem foldl_digits_eq (ds : List Char) (a : Nat) :
    ds.foldl (fun n c => 10 * n + (c.toNat - 48)) a
      = a * 10 ^ ds.length + Nat.ofDigits 10 ((ds.map fun c => c.toNat - 48)).reverse := by
  induction ds generalizing a with
  | nil => simp [Nat.ofDigits_nil]
  | cons c t ih =>
    rw [List.foldl_cons, ih]
    simp only [List.map_cons, List.reverse_cons, List.length_cons, Nat.ofDigits_append,
      List.length_reverse, List.length_map, Nat.ofDigits_singleton]
    ring

/-- The digit fold of the parseInt model agrees with Mathlib's base-10
positional value of the digit list (most significant digit first). -/
theorem digitsToNat_eq_ofDigits (ds : List Char) :
    digitsToNat ds = Nat.ofDigits 10 ((ds.map fun c => c.toNat - 48)).reverse := by
  have h := foldl_digits_eq ds 0
  simpa [digitsToNat] using h

/-- Characterization of the success path: with a present payload and a
zero error code, the handler assembles the result from the two
normalized lists. -/
theorem interpretBody_success (q : String) (p : PayloadData) (h0 : p.ErrorCode = some 0) :
    interpretBody q (some (some p)) = .success
      { query := q
        totalStations := (normalizedStations p).length
        totalPodcasts := (normalizedPodcasts p).length
        stations := normalizedStations p
        podcasts := normalizedPodcasts p } := by
  simp [interpretBody, h0, normalizedStations, normalizedPodcasts]

/-! ### Claim theorems -/

/-- C2: for every query string that is empty or whitespace-only after
trimming (including an absent query parameter), the handler fails with a
400 validation error carrying the fixed message, and performs no
outbound upstream call (call count 0), whatever the upstream would do. -/
theorem C2_blank_query_rejected (rawQuery : Option String) (u : UpstreamOutcome)
    (h : jsTrim (jsOrString rawQuery "") = "") :
    searchHandler rawQuery u = (.failure 400 "Missing required query parameter: query", 0) := by
  simp [searchHandler, h]

/-- C2 witness: a whitespace-only query is rejected with no upstream call. -/
theorem C2_blank_query_rejected_witness :
    jsTrim (jsOrString (some "   ") "") = ""
    ∧ searchHandler (some "   ") .transportError
        = (.failure 400 "Missing required query parameter: query", 0) :=
  ⟨by decide, C2_blank_query_rejected (some "   ") .transportError (by decide)⟩

/-- C5: when the decoded upstream body is absent or lacks the nested
payload object, the handler fails with 502 and the generic
unexpected-response message; no mapping or extraction output appears in
the response. -/
theorem C5_shape_error (rawQuery : Option String) (body : Option (Option PayloadData))
    (hq : jsTrim (jsOrString rawQuery "") ≠ "") (hb : body = none ∨ body = some none) :
    searchHandler rawQuery (.ok body)
      = (.failure 502 "Unexpected response from RadioFM API", 1) := by
  rcases hb with h | h <;> subst h <;> simp [searchHandler, interpretBody, hq]

/-- C5 witness: an entirely absent upstream payload yields the generic
502 shape failure. -/
theorem C5_shape_error_witness :
    jsTrim (jsOrString (some "jazz") "") ≠ ""
    ∧ searchHandler (some "jazz") (.ok none)
        = (.failure 502 "Unexpected response from RadioFM API", 1) :=
  ⟨by decide, C5_shape_error (some "jazz") none (by decide) (Or.inl rfl)⟩

/-- C6: the normalized frequency is null (modelled `none`) when the raw
frequency is the sentinel "~", and is the raw value unchanged for every
other raw value. -/
theorem C6_frequency_sentinel (r : RawItem) :
    (r.st_bc_freq = some "~" → (mapRadioStation r).frequency = none)
    ∧ (r.st_bc_freq ≠ some "~" → (mapRadioStation r).frequency = r.st_bc_freq) := by
  constructor
  · intro h
    simp [mapRadioStation, h]
  · intro h
    simp [mapRadioStation, h]

/-- C6 witness: "~" maps to null and "101.5" passes through unchanged. -/
theorem C6_frequency_sentinel_witness :
    (mapRadioStation { st_bc_freq := some "~" }).frequency = none
    ∧ (mapRadioStation { st_bc_freq := some "101.5" }).frequency = some "101.5" :=
  ⟨(C6_frequency_sentinel { st_bc_freq := some "~" }).1 rfl,
   (C6_frequency_sentinel { st_bc_freq := some "101.5" }).2 (by decide)⟩

/-- C7: the normalized listen URL is the fixed base template
"https://appradiofm.com/radioplay/" concatenated with the raw short-url
identifier. -/
theorem C7_listen_url (r : RawItem) (u : String) (h : r.st_shorturl = some u) :
    (mapRadioStation r).listenUrl = "https://appradiofm.com/radioplay/" ++ u := by
  simp [mapRadioStation, jsTemplateArg, h]

/-- C7 witness: short-url "X123" yields the expected listen URL. -/
theorem C7_listen_url_witness :
    (mapRadioStation { st_shorturl := some "X123" }).listenUrl
        = "https://appradiofm.com/radioplay/" ++ "X123"
    ∧ "https://appradiofm.com/radioplay/" ++ "X123" = "https://appradiofm.com/radioplay/X123" :=
  ⟨C7_listen_url { st_shorturl := some "X123" } "X123" rfl, by decide⟩

/-- C9: when the single outbound call fails with a network or timeout
error (the axios promise rejects), the handler fails with 500 and the
fixed generic message, and the upstream call count stays 1: no retry. -/
theorem C9_transport_error (rawQuery : Option String)
    (h : jsTrim (jsOrString rawQuery "") ≠ "") :
    searchHandler rawQuery .transportError
      = (.failure 500 "Internal server error while searching RadioFM", 1) := by
  simp [searchHandler, h]

/-- C9 witness: a transport failure on a valid query yields the generic
500 with exactly one outbound call. -/
theorem C9_transport_error_witness :
    jsTrim (jsOrString (some "jazz") "") ≠ ""
    ∧ searchHandler (some "jazz") .transportError
        = (.failure 500 "Internal server error while searching RadioFM", 1) :=
  ⟨by decide, C9_transport_error (some "jazz") (by decide)⟩

/-- C10: when the nested payload is present but its error-code field is
absent, the strict `!== 0` comparison sends the handler down the 502
application-error path (generic message when no error message is
present), not the success or shape-error path. -/
theorem C10_absent_error_code (q : String) (p : PayloadData) (h : p.ErrorCode = none) :
    interpretBody q (some (some p))
        = .failure 502 (jsOrString p.ErrorMessage "RadioFM API error")
    ∧ (p.ErrorMessage = none →
        interpretBody q (some (some p)) = .failure 502 "RadioFM API error") := by
  have hne : p.ErrorCode ≠ some 0 := by simp [h]
  constructor
  · simp [interpretBody, hne]
  · intro hm
    simp [interpretBody, hne, hm, jsOrString]

/-- C10 witness: a payload with no error-code field and no error message
fails with the generic 502 application error. -/
theorem C10_absent_error_code_witness :
    interpretBody "q" (some (some ({ ErrorCode := none } : PayloadData)))
        = .failure 502 (jsOrString ({ ErrorCode := none } : PayloadData).ErrorMessage "RadioFM API error")
    ∧ (({ ErrorCode := none } : PayloadData).ErrorMessage = none →
        interpretBody "q" (some (some ({ ErrorCode := none } : PayloadData)))
          = .failure 502 "RadioFM API error") :=
  C10_absent_error_code "q" { ErrorCode := none } rfl

/-- C4 counterexample: a payload with a non-zero error code whose error
message is present but empty gets the generic body "RadioFM API error",
not the upstream's own (empty) message, because the JS `||` default
treats the empty string as absent. -/
theorem C4_counterexample :
    interpretBody "q" (some (some { ErrorCode := some 1, ErrorMessage := some "" }))
        = .failure 502 "RadioFM API error"
    ∧ ({ ErrorCode := some 1, ErrorMessage := some "" } : PayloadData).ErrorMessage = some ""
    ∧ ("RadioFM API error" : String) ≠ "" :=
  ⟨by decide, rfl, by decide⟩

/-- C4 amended: for every payload carrying a non-zero error code, the
handler fails with 502; the body error message is exactly the upstream's
error message when one is present and non-empty, and the generic
"RadioFM API error" when the message is absent or empty. -/
theorem C4_amended_upstream_error (q : String) (p : PayloadData) (c : Int)
    (hc : p.ErrorCode = some c) (hc0 : c ≠ 0) :
    (∀ m, p.ErrorMessage = some m → m ≠ "" →
        interpretBody q (some (some p)) = .failure 502 m)
    ∧ ((p.ErrorMessage = none ∨ p.ErrorMessage = some "") →
        interpretBody q (some (some p)) = .failure 502 "RadioFM API error") := by
  have hne : p.ErrorCode ≠ some 0 := by rw [hc]; simp [hc0]
  constructor
  · intro m hm hm0
    simp [interpretBody, hne, hm, jsOrString, hm0]
  · intro hm
    rcases hm with hm | hm <;> simp [interpretBody, hne, hm, jsOrString]

/-- C4 witness: a non-zero error code with message "No results" fails
with a 502 whose body error message is exactly "No results". -/
theorem C4_amended_upstream_error_witness :
    interpretBody "q"
        (some (some ({ ErrorCode := some 1, ErrorMessage := some "No results" } : PayloadData)))
      = .failure 502 "No results" :=
  (C4_amended_upstream_error "q" { ErrorCode := some 1, ErrorMessage := some "No results" } 1
    rfl (by decide)).1 "No results" rfl (by decide)

/-- C3: on a well-formed payload the handler selects the first bucket
labeled "radio" and the first labeled "podcast"; a kind whose bucket is
missing, or whose item list is absent or not a proper list, yields the
empty collection with count 0 without error, while the other kind is
still populated from its own bucket. -/
theorem C3_bucket_selection (q : String) (p : PayloadData) (bs : List Bucket)
    (h0 : p.ErrorCode = some 0) (hD : p.Data = some bs) :
    ∃ res, interpretBody q (some (some p)) = .success res
      ∧ res.stations = (bucketItems (bs.find? fun b => b.type == some "radio")).map mapRadioStation
      ∧ res.podcasts = (bucketItems (bs.find? fun b => b.type == some "podcast")).map mapPodcast
      ∧ res.totalStations = res.stations.length
      ∧ res.totalPodcasts = res.podcasts.length
      ∧ ((bs.find? fun b => b.type == some "radio") = none →
          res.stations = [] ∧ res.totalStations = 0)
      ∧ (∀ b, (bs.find? fun b2 => b2.type == some "radio") = some b → b.data = none →
          res.stations = [] ∧ res.totalStations = 0)
      ∧ ((bs.find? fun b => b.type == some "podcast") = none →
          res.podcasts = [] ∧ res.totalPodcasts = 0)
      ∧ (∀ b, (bs.find? fun b2 => b2.type == some "podcast") = some b → b.data = none →
          res.podcasts = [] ∧ res.totalPodcasts = 0) := by
  refine ⟨_, interpretBody_success q p h0, ?_, ?_, rfl, rfl, ?_, ?_, ?_, ?_⟩
  · simp [normalizedStations, hD]
  · simp [normalizedPodcasts, hD]
  · intro h
    constructor <;> simp [normalizedStations, hD, h, bucketItems]
  · intro b hb hdata
    constructor <;> simp [normalizedStations, hD, hb, bucketItems, hdata]
  · intro h
    constructor <;> simp [normalizedPodcasts, hD, h, bucketItems]
  · intro b hb hdata
    constructor <;> simp [normalizedPodcasts, hD, hb, bucketItems, hdata]

/-- C3 witness: on the sample payload, whose bucket list has a radio
bucket and no podcast bucket, the podcasts come out empty with count 0
while the stations are populated. -/
theorem C3_bucket_selection_witness :
    ∃ res, interpretBody "jazz" (some (some samplePayload)) = .success res
      ∧ res.stations
          = (bucketItems ([sampleRadioBucket].find? fun b => b.type == some "radio")).map
              mapRadioStation
      ∧ res.podcasts
          = (bucketItems ([sampleRadioBucket].find? fun b => b.type == some "podcast")).map
              mapPodcast
      ∧ res.totalStations = res.stations.length
      ∧ res.totalPodcasts = res.podcasts.length
      ∧ (([sampleRadioBucket].find? fun b => b.type == some "radio") = none →
          res.stations = [] ∧ res.totalStations = 0)
      ∧ (∀ b, ([sampleRadioBucket].find? fun b2 => b2.type == some "radio") = some b →
          b.data = none → res.stations = [] ∧ res.totalStations = 0)
      ∧ (([sampleRadioBucket].find? fun b => b.type == some "podcast") = none →
          res.podcasts = [] ∧ res.totalPodcasts = 0)
      ∧ (∀ b, ([sampleRadioBucket].find? fun b2 => b2.type == some "podcast") = some b →
          b.data = none → res.podcasts = [] ∧ res.totalPodcasts = 0) :=
  C3_bucket_selection "jazz" samplePayload [sampleRadioBucket] rfl rfl

/-- C8: every successful response echoes the trimmed query, reports
totals equal to the lengths of the two normalized lists, and carries
both normalized lists in full, as computed from the upstream payload. -/
theorem C8_result_assembly (rawQuery : Option String) (u : UpstreamOutcome)
    (res : SearchResult) (h : (searchHandler rawQuery u).1 = .success res) :
    res.query = jsTrim (jsOrString rawQuery "")
    ∧ res.totalStations = res.stations.length
    ∧ res.totalPodcasts = res.podcasts.length
    ∧ ∃ p, u = .ok (some (some p))
        ∧ res.stations = normalizedStations p
        ∧ res.podcasts = normalizedPodcasts p := by
  by_cases hq : jsTrim (jsOrString rawQuery "") = ""
  · simp [searchHandler, hq] at h
  · have hsh : ∀ body, (searchHandler rawQuery (.ok body)).1
        = interpretBody (jsTrim (jsOrString rawQuery "")) body := by
      intro body
      simp [searchHandler, hq]
    cases u with
    | transportError => simp [searchHandler, hq] at h
    | ok body =>
      rw [hsh] at h
      match body with
      | none => simp [interpretBody] at h
      | some none => simp [interpretBody] at h
      | some (some p) =>
        by_cases hec : p.ErrorCode = some 0
        · rw [interpretBody_success _ p hec] at h
          injection h with h
          subst h
          exact ⟨rfl, rfl, rfl, p, rfl, rfl, rfl⟩
        · simp [interpretBody, hec] at h

/-- C8 witness: the sample success run echoes the trimmed query "jazz",
counts 1 station and 0 podcasts, and returns the normalized lists. -/
theorem C8_result_assembly_witness :
    (searchHandler (some " jazz ") (.ok (some (some samplePayload)))).1 = .success sampleResult
    ∧ (sampleResult.query = jsTrim (jsOrString (some " jazz ") "")
       ∧ sampleResult.totalStations = sampleResult.stations.length
       ∧ sampleResult.totalPodcasts = sampleResult.podcasts.length
       ∧ ∃ p, UpstreamOutcome.ok (some (some samplePayload)) = .ok (some (some p))
           ∧ sampleResult.stations = normalizedStations p
           ∧ sampleResult.podcasts = normalizedPodcasts p) :=
  ⟨by decide, C8_result_assembly (some " jazz ") (.ok (some (some samplePayload)))
    sampleResult (by decide)⟩

/-- C1 counterexample: a station whose raw play count is the non-numeric
non-empty string "abc" gets playCount NaN (modelled `none`), not 0: the
`|| "0"` default only catches falsy values, and `parseInt("abc", 10)`
is NaN. -/
theorem C1_counterexample :
    (mapRadioStation { st_play_cnt := some "abc" }).playCount = none
    ∧ (mapRadioStation { st_play_cnt := some "abc" }).playCount ≠ some 0 :=
  ⟨by decide, by decide⟩

/-- C1 amended: the normalized counters (playCount, favoriteCount for
stations; totalStream for podcasts) equal 0 when the raw value is
missing or the empty string, and equal the base-10 positional value of
the digits when the raw value is a nonempty all-digit string; a
non-numeric raw string is handed to the base-10 parser unchanged and can
yield NaN rather than 0. -/
theorem C1_amended_counters (r p : RawItem) :
    ((r.st_play_cnt = none ∨ r.st_play_cnt = some "") →
        (mapRadioStation r).playCount = some 0)
    ∧ ((r.st_fav_cnt = none ∨ r.st_fav_cnt = some "") →
        (mapRadioStation r).favoriteCount = some 0)
    ∧ ((p.total_stream = none ∨ p.total_stream = some "") →
        (mapPodcast p).totalStream = some 0)
    ∧ (∀ s, r.st_play_cnt = some s → s.data ≠ [] → (∀ c ∈ s.data, c.isDigit) →
        (mapRadioStation r).playCount
          = some ((Nat.ofDigits 10 ((s.data.map fun c => c.toNat - 48)).reverse : Nat) : Int))
    ∧ (∀ s, r.st_fav_cnt = some s → s.data ≠ [] → (∀ c ∈ s.data, c.isDigit) →
        (mapRadioStation r).favoriteCount
          = some ((Nat.ofDigits 10 ((s.data.map fun c => c.toNat - 48)).reverse : Nat) : Int))
    ∧ (∀ s, p.total_stream = some s → s.data ≠ [] → (∀ c ∈ s.data, c.isDigit) →
        (mapPodcast p).totalStream
          = some ((Nat.ofDigits 10 ((s.data.map fun c => c.toNat - 48)).reverse : Nat) : Int)) := by
  have hzero : parseInt10 "0" = some 0 := by decide
  have hdigits : ∀ s : String, s.data ≠ [] → (∀ c ∈ s.data, c.isDigit) →
      parseInt10 s
        = some ((Nat.ofDigits 10 ((s.data.map fun c => c.toNat - 48)).reverse : Nat) : Int) := by
    intro s hne hdig
    rw [parseInt10_digits s hne hdig, digitsToNat_eq_ofDigits]
  refine ⟨?_, ?_, ?_, ?_, ?_, ?_⟩
  · rintro (h | h) <;> simp [mapRadioStation, jsOrString, h, hzero]
  · rintro (h | h) <;> simp [mapRadioStation, jsOrString, h, hzero]
  · rintro (h | h) <;> simp [mapPodcast, jsOrString, h, hzero]
  · intro s hs hne hdig
    have hs0 : s ≠ "" := fun h => hne (by rw [h])
    simp [mapRadioStation, jsOrString, hs, hs0, hdigits s hne hdig]
  · intro s hs hne hdig
    have hs0 : s ≠ "" := fun h => hne (by rw [h])
    simp [mapRadioStation, jsOrString, hs, hs0, hdigits s hne hdig]
  · intro s hs hne hdig
    have hs0 : s ≠ "" := fun h => hne (by rw [h])
    simp [mapPodcast, jsOrString, hs, hs0, hdigits s hne hdig]

/-- C1 witness: empty and missing raw counters give 0, and the numeric
string "123" parses to the base-10 value 123. -/
theorem C1_amended_counters_witness :
    (mapRadioStation { st_play_cnt := some "" }).playCount = some 0
    ∧ (mapRadioStation { st_fav_cnt := none }).favoriteCount = some 0
    ∧ (mapPodcast { total_stream := none }).totalStream = some 0
    ∧ (mapRadioStation { st_play_cnt := some "123" }).playCount
        = some ((Nat.ofDigits 10 (("123".data.map fun c => c.toNat - 48)).reverse : Nat) : Int)
    ∧ (Nat.ofDigits 10 (("123".data.map fun c => c.toNat - 48)).reverse : Nat) = 123 :=
  ⟨(C1_amended_counters { st_play_cnt := some "" } {}).1 (Or.inr rfl),
   (C1_amended_counters { st_fav_cnt := none } {}).2.1 (Or.inl rfl),
   (C1_amended_counters {} { total_stream := none }).2.2.1 (Or.inl rfl),
   (C1_amended_counters { st_play_cnt := some "123" } {}).2.2.2.1 "123" rfl (by decide)
     (by decide),
   by decide⟩

end RadioFM
